import Mathlib

set_option maxHeartbeats 1000000

/-!
Shallow embedding of the Scrutiny Home Assistant integration core
(custom_components/scrutiny/api.py and coordinator.py).

Python dictionaries are modelled as ordered association lists (insertion
order preserved, as in CPython), JSON-decoded values as the inductive
type PyVal, and raised exceptions as values of type PyExc threaded
through Except.
-/

/-- A Python value as it appears after JSON decoding. -/
inductive PyVal where
  | none
  | bool (b : Bool)
  | int (n : Int)
  | str (s : String)
  | list (xs : List PyVal)
  | dict (entries : List (String × PyVal))

/-- Python truthiness of a PyVal (bool(v)). -/
def truthy : PyVal → Bool
  | PyVal.none => false
  | PyVal.bool b => b
  | PyVal.int n => n != 0
  | PyVal.str s => !s.isEmpty
  | PyVal.list xs => !xs.isEmpty
  | PyVal.dict es => !es.isEmpty

/-- Lookup in an ordered association list (Python dict access). -/
def alistGet {α : Type} (l : List (String × α)) (k : String) : Option α :=
  match l with
  | [] => Option.none
  | (k', v) :: rest => if k' = k then some v else alistGet rest k

/-- Assignment d[k] = v on an ordered association list: update in place
when the key exists (keeping its position), append otherwise — matching
CPython dict assignment semantics. -/
def alistSet {α : Type} (l : List (String × α)) (k : String) (v : α) :
    List (String × α) :=
  match l with
  | [] => [(k, v)]
  | (k', v') :: rest =>
      if k' = k then (k, v) :: rest else (k', v') :: alistSet rest k v

/-- Python d.get(k): None when the key is absent. -/
def pyGet (l : List (String × PyVal)) (k : String) : PyVal :=
  (alistGet l k).getD PyVal.none

/-- Python d.get(k, dflt). -/
def pyGetD (l : List (String × PyVal)) (k : String) (dflt : PyVal) : PyVal :=
  (alistGet l k).getD dflt

/-- True when the first list of characters occurs at the start of the
second. -/
def charsStartWith : List Char → List Char → Bool
  | [], _ => true
  | _ :: _, [] => false
  | c :: cs, d :: ds => c == d && charsStartWith cs ds

/-- True when the first list of characters occurs anywhere in the
second. -/
def charsContain (needle : List Char) : List Char → Bool
  | [] => needle.isEmpty
  | c :: rest => charsStartWith needle (c :: rest) || charsContain needle rest

/-- Python substring test: "application/json" in content_type (the
Content-Type check in api.py). -/
def containsJson (haystack : String) : Bool :=
  charsContain "application/json".toList haystack.toList

/-- A raised Python exception, as relevant to the Scrutiny integration:
the ScrutinyApiError hierarchy from api.py plus the builtin exceptions
that can escape the data processing of the coordinator. -/
inductive PyExc where
  | connectionError (msg : String)
  | authError (msg : String)
  | responseError (msg : String)
  | apiError (msg : String)
  | attributeError (msg : String)
  | keyError (msg : String)
  | otherError (msg : String)

/-- isinstance(e, ScrutinyApiError): the four-class hierarchy in api.py. -/
def isScrutinyApiError : PyExc → Bool
  | PyExc.connectionError _ => true
  | PyExc.authError _ => true
  | PyExc.responseError _ => true
  | PyExc.apiError _ => true
  | _ => false

/-- isinstance(e, ScrutinyApiConnectionError). -/
def isConnectionError : PyExc → Bool
  | PyExc.connectionError _ => true
  | _ => false

/-- isinstance(e, ScrutinyApiResponseError). -/
def isResponseError : PyExc → Bool
  | PyExc.responseError _ => true
  | _ => false

/-- str(e): the message carried by the exception. -/
def excStr : PyExc → String
  | PyExc.connectionError m => m
  | PyExc.authError m => m
  | PyExc.responseError m => m
  | PyExc.apiError m => m
  | PyExc.attributeError m => m
  | PyExc.keyError m => m
  | PyExc.otherError m => m

/-- Outcome of ScrutinyApiClient._request plus reading the response: either
_request raised (connection, auth or HTTP-status error), or an HTTP
response arrived with a Content-Type header and a body whose JSON parse
either failed (json.JSONDecodeError) or produced a value. -/
inductive HttpResult where
  | err (e : PyExc)
  | ok (contentType : String) (body : Except Unit PyVal)

/-- ScrutinyApiClient.async_get_summary (api.py lines 194-289), as a
function of the HTTP outcome. Faithful points: the Content-Type check and
the JSON decode happen inside the try block (a decode error is rewrapped
as ScrutinyApiResponseError, other ScrutinyApiErrors are re-raised,
anything else becomes a generic ScrutinyApiError); the structural
validation happens in the else block of the try statement, whose exceptions
are NOT caught by the except clauses — in particular, when the decoded
dict has a truthy success flag but its data value is present and not a
dict, the chained .get call raises AttributeError, which escapes as-is. -/
def async_get_summary (resp : HttpResult) : Except PyExc PyVal :=
  match resp with
  | HttpResult.err e =>
      if isScrutinyApiError e then Except.error e
      else Except.error (PyExc.apiError
        "Unexpected error occurred while processing Scrutiny summary")
  | HttpResult.ok contentType body =>
      if !containsJson contentType then
        Except.error (PyExc.responseError
          "Expected JSON from Scrutiny summary")
      else
        match body with
        | Except.error _ =>
            Except.error (PyExc.responseError
              "Invalid JSON response received from Scrutiny summary")
        | Except.ok data =>
            match data with
            | PyVal.dict entries =>
                if !truthy (pyGet entries "success") then
                  Except.error (PyExc.responseError
                    "Scrutiny API summary call not successful or unexpected format")
                else
                  match pyGetD entries "data" (PyVal.dict []) with
                  | PyVal.dict d =>
                      match alistGet d "summary" with
                      | some (PyVal.dict s) => Except.ok (PyVal.dict s)
                      | _ =>
                          Except.error (PyExc.responseError
                            "Scrutiny API summary data field is missing or not a dictionary")
                  | _ =>
                      Except.error (PyExc.attributeError
                        "object has no attribute get")
            | _ =>
                Except.error (PyExc.responseError
                  "Scrutiny API summary call not successful or unexpected format")

/-- ScrutinyApiClient.async_get_device_details (api.py lines 291-374), as
a function of the HTTP outcome. On validation success it returns the
ENTIRE decoded response dict; it only checks that the decoded value is a
dict with a truthy success flag and that the data and metadata keys are
present (their values are not inspected). -/
def async_get_device_details (resp : HttpResult) : Except PyExc PyVal :=
  match resp with
  | HttpResult.err e =>
      if isScrutinyApiError e then Except.error e
      else Except.error (PyExc.apiError
        "Unexpected error processing Scrutiny device details")
  | HttpResult.ok contentType body =>
      if !containsJson contentType then
        Except.error (PyExc.responseError
          "Expected JSON from Scrutiny device details")
      else
        match body with
        | Except.error _ =>
            Except.error (PyExc.responseError
              "Invalid JSON response received from Scrutiny device details")
        | Except.ok data =>
            match data with
            | PyVal.dict entries =>
                if !truthy (pyGet entries "success") then
                  Except.error (PyExc.responseError
                    "Scrutiny API device details call not successful or unexpected format")
                else if (alistGet entries "data").isNone
                    || (alistGet entries "metadata").isNone then
                  Except.error (PyExc.responseError
                    "Scrutiny API device details response is missing data or metadata key")
                else Except.ok (PyVal.dict entries)
            | _ =>
                Except.error (PyExc.responseError
                  "Scrutiny API device details call not successful or unexpected format")

/-! Coordinator (coordinator.py). Key constants from const.py. -/

def KEY_SUMMARY_DEVICE : String := "summary_device"

def KEY_SUMMARY_SMART : String := "summary_smart"

def KEY_DETAILS_DEVICE : String := "details_device"

def KEY_DETAILS_SMART_LATEST : String := "details_smart_latest"

def KEY_DETAILS_METADATA : String := "details_smart_attributes_metadata"

def ATTR_DEVICE : String := "device"

def ATTR_SMART : String := "smart"

def ATTR_SMART_RESULTS : String := "smart_results"

def ATTR_METADATA : String := "metadata"

/-- One result slot of asyncio.gather(..., return_exceptions=True): either
the exception a detail task raised, or the value it returned. -/
inductive GatherResult where
  | exc (e : PyExc)
  | val (v : PyVal)

/-- The aggregated per-device dictionary (value type of
aggregated_disk_data). -/
abbrev DiskRec := List (String × PyVal)

/-- The three empty-placeholder assignments made on the exception branch
(and on the unexpected-type branch) of _process_detail_results. -/
def emptyDetailFields (target : DiskRec) : DiskRec :=
  alistSet
    (alistSet (alistSet target KEY_DETAILS_DEVICE (PyVal.dict []))
      KEY_DETAILS_SMART_LATEST (PyVal.dict []))
    KEY_DETAILS_METADATA (PyVal.dict [])

/-- The latest-snapshot selection of _process_detail_results
(coordinator.py lines 203-216): take smart_results_list[0] only when the
value is a non-empty list whose first element is truthy; otherwise use an
empty dict. (A truthy non-list short-circuits the isinstance check, so
indexing never happens on a non-list.) -/
def latestOf (smart_results_list : PyVal) : PyVal :=
  match smart_results_list with
  | PyVal.list (x :: _) => if truthy x then x else PyVal.dict []
  | _ => PyVal.dict []

/-- ScrutinyDataUpdateCoordinator._process_detail_results (coordinator.py
lines 129-239), as a pure transformation of the target dict. The only way
it can raise is the AttributeError from actual_payload.get when the data
field of a successful response is present but not a dict; that exception
fires before any of the three detail fields is written. A non-dict,
non-exception result takes the defensive else branch and writes empty
placeholders. -/
def _process_detail_results (full_detail_response : GatherResult)
    (target : DiskRec) : Except PyExc DiskRec :=
  match full_detail_response with
  | GatherResult.exc _ => Except.ok (emptyDetailFields target)
  | GatherResult.val v =>
      match v with
      | PyVal.dict entries =>
          match pyGetD entries "data" (PyVal.dict []) with
          | PyVal.dict payload =>
              let t1 := alistSet target KEY_DETAILS_DEVICE
                (pyGetD payload ATTR_DEVICE (PyVal.dict []))
              let t2 := alistSet t1 KEY_DETAILS_SMART_LATEST
                (latestOf (pyGetD payload ATTR_SMART_RESULTS (PyVal.list [])))
              Except.ok (alistSet t2 KEY_DETAILS_METADATA
                (pyGetD entries ATTR_METADATA (PyVal.dict [])))
          | _ =>
              Except.error (PyExc.attributeError
                "object has no attribute get")
      | _ => Except.ok (emptyDetailFields target)

/-- The per-device initialisation performed in the summary loop of
_async_update_data (coordinator.py lines 284-296): the five-key dict with
summary fields populated and detail placeholders empty. Raises
AttributeError when the per-device summary record is not a dict
(disk_summary_info.get would fail). -/
def buildEntry (disk_summary_info : PyVal) : Except PyExc DiskRec :=
  match disk_summary_info with
  | PyVal.dict si =>
      Except.ok
        [(KEY_SUMMARY_DEVICE, pyGetD si ATTR_DEVICE (PyVal.dict [])),
         (KEY_SUMMARY_SMART, pyGetD si ATTR_SMART (PyVal.dict [])),
         (KEY_DETAILS_DEVICE, PyVal.dict []),
         (KEY_DETAILS_SMART_LATEST, PyVal.dict []),
         (KEY_DETAILS_METADATA, PyVal.dict [])]
  | _ => Except.error (PyExc.attributeError "object has no attribute get")

/-- The summary loop of _async_update_data: walk summary_data.items() in
order, building current_run_aggregated_data and wwn_order. -/
def summaryLoop (items : List (String × PyVal))
    (acc : List (String × DiskRec)) (ord : List String) :
    Except PyExc (List (String × DiskRec) × List String) :=
  match items with
  | [] => Except.ok (acc, ord)
  | (wwn, info) :: rest =>
      match buildEntry info with
      | Except.error e => Except.error e
      | Except.ok entry =>
          summaryLoop rest (alistSet acc wwn entry) (ord ++ [wwn])

/-- The result-processing loop of _async_update_data (lines 311-314):
for each (wwn, gather result) pair in order, look the per-device dict up in
the aggregated data and run _process_detail_results on it. -/
def detailLoop (pairs : List (String × GatherResult))
    (acc : List (String × DiskRec)) : Except PyExc (List (String × DiskRec)) :=
  match pairs with
  | [] => Except.ok acc
  | (wwn, r) :: rest =>
      match alistGet acc wwn with
      | Option.none => Except.error (PyExc.keyError wwn)
      | some target =>
          match _process_detail_results r target with
          | Except.error e => Except.error e
          | Except.ok t => detailLoop rest (alistSet acc wwn t)

/-- The environment one update cycle runs against: the outcome of the
summary fetch, and for each wwn the outcome of its detail fetch as
captured by asyncio.gather(return_exceptions=True). -/
structure ApiEnv where
  summary : Except PyExc PyVal
  detail : String → GatherResult

/-- The try-block body of _async_update_data: summary fetch, isinstance
check, summary loop, fan-out gather (results in task order), detail loop.
Second component: the wwns whose detail calls were actually awaited
(detail coroutines created before a summary-loop failure are never
awaited, so no detail fetch is issued for them). -/
def updateBody (env : ApiEnv) :
    Except PyExc (List (String × DiskRec)) × List String :=
  match env.summary with
  | Except.error e => (Except.error e, [])
  | Except.ok summary_data =>
      match summary_data with
      | PyVal.dict items =>
          match summaryLoop items [] [] with
          | Except.error e => (Except.error e, [])
          | Except.ok (acc, ord) =>
              (detailLoop (ord.zip (ord.map env.detail)) acc, ord)
      | _ =>
          (Except.error (PyExc.responseError
            "Summary data from API was not a dictionary."), [])

/-- The UpdateFailed exception raised by _raise_update_failed
(coordinator.py lines 50-64): message plus the chained original cause. -/
structure UpdateFailedE where
  message : String
  cause : PyExc

/-- The three except branches of _async_update_data (lines 318-333):
ScrutinyApiConnectionError, other ScrutinyApiError, any other Exception.
Each wraps the original error into UpdateFailed via _raise_update_failed,
which appends the string form of the original error to the message. -/
def classifyUpdateError (e : PyExc) : UpdateFailedE :=
  if isConnectionError e then
    { message := "Connection error during Scrutiny data update cycle"
        ++ ": " ++ excStr e,
      cause := e }
  else if isScrutinyApiError e then
    { message := "API error during Scrutiny data update cycle: " ++ excStr e
        ++ ": " ++ excStr e,
      cause := e }
  else
    { message := "An unexpected error occurred during Scrutiny data update"
        ++ ": " ++ excStr e,
      cause := e }

/-- Observable outcome of one call to _async_update_data: the returned
snapshot or the raised UpdateFailed, the detail calls issued (in order),
and the aggregated_disk_data of the coordinator afterwards. -/
structure UpdateOutcome where
  result : Except UpdateFailedE (List (String × DiskRec))
  detailCalls : List String
  newState : List (String × DiskRec)

/-- ScrutinyDataUpdateCoordinator._async_update_data (coordinator.py
lines 241-342) with the fan-out results taken in task order (asyncio
documented result order of gather). On any exception the stored
aggregated_disk_data is left untouched (the assignment on line 341 is
only reached on success). -/
def _async_update_data (env : ApiEnv)
    (state : List (String × DiskRec)) : UpdateOutcome :=
  match updateBody env with
  | (Except.error e, calls) =>
      { result := Except.error (classifyUpdateError e),
        detailCalls := calls, newState := state }
  | (Except.ok acc, calls) =>
      { result := Except.ok acc, detailCalls := calls, newState := acc }

/-- The fan-in barrier of asyncio.gather modelled explicitly: detail
tasks finish in an arbitrary completion order, and the outcome of each task is
written into the result slot at that task launch index. The slots start
as placeholders and every index below the task count appears in a real
completion order. -/
def gatherSched (order : List String) (detail : String → GatherResult)
    (completion : List Nat) : List GatherResult :=
  completion.foldl
    (fun acc i =>
      acc.set i
        (match order.get? i with
         | some w => detail w
         | Option.none => GatherResult.exc (PyExc.otherError "pending")))
    (List.replicate order.length (GatherResult.exc (PyExc.otherError "pending")))

/-- updateBody with the gather fan-in replaced by the completion-order
model: results are written by completion order but stored by launch
index. -/
def updateBodySched (env : ApiEnv) (completion : List Nat) :
    Except PyExc (List (String × DiskRec)) × List String :=
  match env.summary with
  | Except.error e => (Except.error e, [])
  | Except.ok summary_data =>
      match summary_data with
      | PyVal.dict items =>
          match summaryLoop items [] [] with
          | Except.error e => (Except.error e, [])
          | Except.ok (acc, ord) =>
              (detailLoop (ord.zip (gatherSched ord env.detail completion)) acc,
               ord)
      | _ =>
          (Except.error (PyExc.responseError
            "Summary data from API was not a dictionary."), [])

/-- _async_update_data over the completion-order model of gather. -/
def _async_update_data_sched (env : ApiEnv) (completion : List Nat)
    (state : List (String × DiskRec)) : UpdateOutcome :=
  match updateBodySched env completion with
  | (Except.error e, calls) =>
      { result := Except.error (classifyUpdateError e),
        detailCalls := calls, newState := state }
  | (Except.ok acc, calls) =>
      { result := Except.ok acc, detailCalls := calls, newState := acc }

/-- The value buildEntry produces on success (empty dict on failure;
only used under a success hypothesis). -/
def entryD (info : PyVal) : DiskRec :=
  match buildEntry info with
  | Except.ok e => e
  | Except.error _ => []

/-- The value _process_detail_results produces on success. -/
def processD (r : GatherResult) (target : DiskRec) : DiskRec :=
  match _process_detail_results r target with
  | Except.ok t => t
  | Except.error _ => []

/-- The Result Reducer of the spec as it exists in the code: build the
summary-populated record for one device, then fold the detail
result of that device into it. Depends only on its summary record and detail
result. -/
def reduceRecord (info : PyVal) (r : GatherResult) : Except PyExc DiskRec :=
  match buildEntry info with
  | Except.error e => Except.error e
  | Except.ok entry => _process_detail_results r entry

/-- The successful value of reduceRecord. -/
def reduceD (info : PyVal) (r : GatherResult) : DiskRec :=
  match reduceRecord info r with
  | Except.ok t => t
  | Except.error _ => []

/-! Helper lemmas about the association-list dictionary model. -/

theorem alistSet_append {α : Type} (l : List (String × α)) (k : String) (v : α)
    (h : k ∉ l.map Prod.fst) : alistSet l k v = l ++ [(k, v)] := by
  induction l with
  | nil => simp [alistSet]
  | cons p rest ih =>
      obtain ⟨k', v'⟩ := p
      simp only [List.map_cons, List.mem_cons] at h
      push_neg at h
      have hne : ¬ (k' = k) := Ne.symm h.1
      simp [alistSet, hne, ih h.2]

theorem alistGet_append_right {α : Type} (l1 l2 : List (String × α))
    (k : String) (v : α) (h : k ∉ l1.map Prod.fst) :
    alistGet (l1 ++ (k, v) :: l2) k = some v := by
  induction l1 with
  | nil => simp [alistGet]
  | cons p rest ih =>
      obtain ⟨k', v'⟩ := p
      simp only [List.map_cons, List.mem_cons] at h
      push_neg at h
      have hne : ¬ (k' = k) := Ne.symm h.1
      simp [alistGet, hne, ih h.2]

theorem alistSet_mid {α : Type} (l1 l2 : List (String × α)) (k : String)
    (v v' : α) (h : k ∉ l1.map Prod.fst) :
    alistSet (l1 ++ (k, v) :: l2) k v' = l1 ++ (k, v') :: l2 := by
  induction l1 with
  | nil => simp [alistSet]
  | cons p rest ih =>
      obtain ⟨k1, v1⟩ := p
      simp only [List.map_cons, List.mem_cons] at h
      push_neg at h
      have hne : ¬ (k1 = k) := Ne.symm h.1
      simp [alistSet, hne, ih h.2]

theorem alistGet_set_self {α : Type} (l : List (String × α)) (k : String)
    (v : α) : alistGet (alistSet l k v) k = some v := by
  induction l with
  | nil => simp [alistSet, alistGet]
  | cons p rest ih =>
      obtain ⟨k', v'⟩ := p
      by_cases hk : k' = k
      · simp [alistSet, alistGet, hk]
      · simp [alistSet, alistGet, hk, ih]

theorem alistGet_set_ne {α : Type} (l : List (String × α)) (k k' : String)
    (v : α) (h : k ≠ k') : alistGet (alistSet l k v) k' = alistGet l k' := by
  induction l with
  | nil => simp [alistSet, alistGet, h]
  | cons p rest ih =>
      obtain ⟨k1, v1⟩ := p
      by_cases hk : k1 = k
      · subst hk; simp [alistSet, alistGet, h]
      · simp only [alistSet, if_neg hk]
        by_cases hk' : k1 = k'
        · simp [alistGet, hk']
        · simp [alistGet, hk', ih]

theorem zip_map_self {α β : Type} (l : List α) (f : α → β) :
    l.zip (l.map f) = l.map (fun a => (a, f a)) := by
  induction l with
  | nil => rfl
  | cons a rest ih => simpa [List.zip] using ih

/-! Characterization of the summary loop, the detail loop and the whole
update body on well-formed cycles. -/

theorem summaryLoop_spec (items : List (String × PyVal)) :
    ∀ (acc : List (String × DiskRec)) (ord : List String),
    (acc.map Prod.fst ++ items.map Prod.fst).Nodup →
    (∀ p ∈ items, ∃ v, buildEntry p.2 = Except.ok v) →
    summaryLoop items acc ord =
      Except.ok (acc ++ items.map (fun p => (p.1, entryD p.2)),
        ord ++ items.map Prod.fst) := by
  induction items with
  | nil => intro acc ord _ _; simp [summaryLoop]
  | cons p rest ih =>
      intro acc ord hnd hok
      obtain ⟨w, info⟩ := p
      obtain ⟨v, hv⟩ := hok (w, info) (List.mem_cons_self _ _)
      have hnd' : (acc.map Prod.fst).Nodup ∧ (w :: rest.map Prod.fst).Nodup ∧
          (acc.map Prod.fst).Disjoint (w :: rest.map Prod.fst) := by
        simpa [List.nodup_append] using hnd
      have hw : w ∉ acc.map Prod.fst := fun hmem =>
        hnd'.2.2 hmem (List.mem_cons_self _ _)
      have hent : entryD info = v := by simp [entryD, hv]
      simp only [summaryLoop, hv]
      rw [alistSet_append acc w v hw]
      rw [ih (acc ++ [(w, v)]) (ord ++ [w]) ?_ ?_]
      · simp [List.append_assoc, hent]
      · simpa [List.append_assoc] using hnd
      · exact fun q hq => hok q (List.mem_cons_of_mem _ hq)

theorem detailLoop_spec (work : List ((String × DiskRec) × GatherResult)) :
    ∀ (front : List (String × DiskRec)),
    (front.map Prod.fst ++ work.map (fun q => q.1.1)).Nodup →
    (∀ q ∈ work, ∃ t, _process_detail_results q.2 q.1.2 = Except.ok t) →
    detailLoop (work.map fun q => (q.1.1, q.2))
        (front ++ work.map fun q => q.1) =
      Except.ok (front ++ work.map fun q => (q.1.1, processD q.2 q.1.2)) := by
  induction work with
  | nil => intro front _ _; simp [detailLoop]
  | cons q rest ih =>
      intro front hnd hok
      obtain ⟨⟨w, e⟩, r⟩ := q
      obtain ⟨t, ht⟩ := hok ((w, e), r) (List.mem_cons_self _ _)
      have hnd' : (front.map Prod.fst).Nodup ∧
          (w :: rest.map fun q => q.1.1).Nodup ∧
          (front.map Prod.fst).Disjoint (w :: rest.map fun q => q.1.1) := by
        simpa [List.nodup_append] using hnd
      have hw : w ∉ front.map Prod.fst := fun hmem =>
        hnd'.2.2 hmem (List.mem_cons_self _ _)
      have hproc : processD r e = t := by simp [processD, ht]
      simp only [List.map_cons, detailLoop]
      rw [alistGet_append_right front _ w e hw]
      simp only [ht]
      rw [alistSet_mid front _ w e t hw]
      have hfront : front ++ (w, t) :: (rest.map fun q => q.1) =
          (front ++ [(w, t)]) ++ (rest.map fun q => q.1) := by
        simp [List.append_assoc]
      rw [hfront, ih (front ++ [(w, t)]) ?_ ?_]
      · simp [List.append_assoc, hproc]
      · simpa [List.append_assoc] using hnd
      · exact fun q hq => hok q (List.mem_cons_of_mem _ hq)

theorem updateBody_spec (env : ApiEnv) (items : List (String × PyVal))
    (h1 : env.summary = Except.ok (PyVal.dict items))
    (h2 : (items.map Prod.fst).Nodup)
    (h3 : ∀ p ∈ items, ∃ t, reduceRecord p.2 (env.detail p.1) = Except.ok t) :
    updateBody env =
      (Except.ok (items.map fun p => (p.1, reduceD p.2 (env.detail p.1))),
       items.map Prod.fst) := by
  have hbuild : ∀ p ∈ items, ∃ v, buildEntry p.2 = Except.ok v := by
    intro p hp
    obtain ⟨t, ht⟩ := h3 p hp
    unfold reduceRecord at ht
    cases hb : buildEntry p.2 with
    | error e => rw [hb] at ht; cases ht
    | ok v => exact ⟨v, rfl⟩
  have hsum := summaryLoop_spec items [] [] (by simpa using h2) hbuild
  have hzip : (items.map Prod.fst).zip ((items.map Prod.fst).map env.detail)
      = items.map fun p => (p.1, env.detail p.1) := by
    rw [zip_map_self]
    simp [List.map_map, Function.comp]
  unfold updateBody
  rw [h1]
  simp only [hsum, List.nil_append]
  rw [hzip]
  have hdet := detailLoop_spec
    (items.map fun p => ((p.1, entryD p.2), env.detail p.1)) []
    (by simpa [List.map_map, Function.comp] using h2)
    ?_
  · have hw1 : ((items.map fun p => ((p.1, entryD p.2), env.detail p.1)).map
        fun q => (q.1.1, q.2)) = items.map fun p => (p.1, env.detail p.1) := by
      simp [List.map_map, Function.comp]
    have hw2 : ((items.map fun p => ((p.1, entryD p.2), env.detail p.1)).map
        fun q => q.1) = items.map fun p => (p.1, entryD p.2) := by
      simp [List.map_map, Function.comp]
    rw [hw1, hw2] at hdet
    simp only [List.nil_append] at hdet
    rw [hdet]
    have hmap : ((items.map fun p => ((p.1, entryD p.2), env.detail p.1)).map
        fun q => (q.1.1, processD q.2 q.1.2)) =
        items.map fun p => (p.1, reduceD p.2 (env.detail p.1)) := by
      rw [List.map_map]
      apply List.map_congr_left
      intro p hp
      obtain ⟨v, hv⟩ := hbuild p hp
      simp [Function.comp, processD, reduceD, reduceRecord, entryD, hv]
    rw [hmap]
  · intro q hq
    obtain ⟨p, hp, rfl⟩ := List.mem_map.mp hq
    obtain ⟨t, ht⟩ := h3 p hp
    obtain ⟨v, hv⟩ := hbuild p hp
    refine ⟨t, ?_⟩
    unfold reduceRecord at ht
    rw [hv] at ht
    simpa [entryD, hv] using ht

/-! The fan-in barrier: writing the outcome of each task into its launch-index
slot yields the same result list for every completion order that includes
all task indices. -/

theorem foldl_set_length {α : Type} (comp : List Nat) (f : Nat → α) :
    ∀ (init : List α),
    (comp.foldl (fun acc i => acc.set i (f i)) init).length = init.length := by
  induction comp with
  | nil => intro init; rfl
  | cons i comp ih =>
      intro init
      simp only [List.foldl_cons]
      rw [ih (init.set i (f i))]
      simp

theorem foldl_set_getElem {α : Type} (comp : List Nat) (f : Nat → α) :
    ∀ (init : List α) (j : Nat), j < init.length →
    (comp.foldl (fun acc i => acc.set i (f i)) init)[j]? =
      if j ∈ comp then some (f j) else init[j]? := by
  induction comp with
  | nil => intro init j hj; simp
  | cons i comp ih =>
      intro init j hj
      simp only [List.foldl_cons]
      rw [ih (init.set i (f i)) j (by simpa using hj)]
      by_cases hji : j = i
      · subst hji
        by_cases hjc : j ∈ comp
        · simp [hjc]
        · simp [hjc, List.getElem?_set_eq_of_lt (f j) hj]
      · by_cases hjc : j ∈ comp
        · simp [hjc]
        · rw [List.getElem?_set_ne (fun he => hji he.symm)]
          simp [hjc, hji]

theorem gatherSched_eq (order : List String) (detail : String → GatherResult)
    (completion : List Nat)
    (hcov : ∀ i, i < order.length → i ∈ completion) :
    gatherSched order detail completion = order.map detail := by
  apply List.ext_getElem?
  intro j
  by_cases hj : j < order.length
  · unfold gatherSched
    rw [foldl_set_getElem _ _ _ j (by simpa using hj)]
    rw [if_pos (hcov j hj)]
    rw [List.getElem?_map, List.getElem?_eq_getElem hj]
    simp [List.get?_eq_getElem?, List.getElem?_eq_getElem hj]
  · have h1 : (gatherSched order detail completion).length = order.length := by
      unfold gatherSched
      rw [foldl_set_length]
      simp
    have h2 : (gatherSched order detail completion)[j]? = Option.none :=
      List.getElem?_eq_none (by omega)
    have h3 : (List.map detail order)[j]? = Option.none :=
      List.getElem?_eq_none (by simp; omega)
    rw [h2, h3]

/-! Single-flight refresh discipline. -/

/-- Modelled from the spec: the single-flight refresh state machine of
section 4.4. The scheduling component that enforces it (the Home Assistant
DataUpdateCoordinator base class, which _async_update_data is invoked
through) is not part of the sources of this repository, so the discipline is
modelled from the spec words: a trigger in Idle starts a cycle (one
summary call becomes observable in flight); a trigger while Refreshing is
coalesced into the in-flight refresh, starting no second cycle and
queueing none; completing a cycle returns to Idle. -/
structure SchedState where
  refreshing : Bool
  inFlightSummary : Nat
  queued : Nat

/-- Modelled from the spec: the events driving the coordinator state
machine — a refresh trigger (periodic tick or on-demand request) and the
completion of the in-flight cycle. -/
inductive SchedEvent where
  | trigger
  | complete

/-- Modelled from the spec: one transition of the single-flight state
machine. -/
def schedStep (s : SchedState) : SchedEvent → SchedState
  | SchedEvent.trigger =>
      if s.refreshing then s
      else { refreshing := true, inFlightSummary := s.inFlightSummary + 1,
             queued := s.queued }
  | SchedEvent.complete =>
      if s.refreshing then
        { refreshing := false, inFlightSummary := s.inFlightSummary - 1,
          queued := s.queued }
      else s

/-- The initial coordinator state: Idle, nothing in flight, nothing
queued. -/
def schedInit : SchedState :=
  { refreshing := false, inFlightSummary := 0, queued := 0 }

/-- Run the state machine over a trace of events. -/
def schedRun (events : List SchedEvent) : SchedState :=
  events.foldl schedStep schedInit

/-- The inductive invariant of the single-flight machine. -/
def schedInv (s : SchedState) : Prop :=
  s.inFlightSummary = (if s.refreshing then 1 else 0) ∧ s.queued = 0

theorem schedStep_inv (s : SchedState) (e : SchedEvent) (h : schedInv s) :
    schedInv (schedStep s e) := by
  obtain ⟨h1, h2⟩ := h
  cases e with
  | trigger =>
      by_cases hr : s.refreshing <;>
        simp [schedStep, schedInv, hr, h2] <;> simp [hr] at h1 <;> simp [h1]
  | complete =>
      by_cases hr : s.refreshing <;>
        simp [schedStep, schedInv, hr, h2] <;> simp [hr] at h1 <;> simp [h1]

theorem schedRun_inv (events : List SchedEvent) :
    ∀ (s : SchedState), schedInv s →
    schedInv (events.foldl schedStep s) := by
  induction events with
  | nil => intro s h; exact h
  | cons e rest ih =>
      intro s h
      exact ih (schedStep s e) (schedStep_inv s e h)

/-! Claim theorems. -/

/-- C5: a cycle whose summary fetch returns an empty mapping of devices
completes successfully, returns an empty snapshot, and issues zero detail
fetch calls (and publishes the empty snapshot as the new state). -/
theorem c5_empty_roster (detail : String → GatherResult)
    (st : List (String × DiskRec)) :
    _async_update_data (ApiEnv.mk (Except.ok (PyVal.dict [])) detail) st =
      UpdateOutcome.mk (Except.ok []) [] [] := rfl

/-- C2: when the summary fetch raises any ScrutinyApiError (in particular
ScrutinyApiConnectionError), _async_update_data raises UpdateFailed with
the original error as its cause, no detail fetch is attempted, and the
stored aggregated_disk_data is exactly what it was before the cycle. -/
theorem c2_summary_failure_aborts_cycle (env : ApiEnv)
    (st : List (String × DiskRec)) (e : PyExc)
    (h1 : env.summary = Except.error e)
    (h2 : isScrutinyApiError e = true) :
    (∃ u, (_async_update_data env st).result = Except.error u ∧ u.cause = e)
    ∧ (_async_update_data env st).detailCalls = []
    ∧ (_async_update_data env st).newState = st := by
  have hb : updateBody env = (Except.error e, []) := by
    unfold updateBody
    rw [h1]
  refine ⟨⟨classifyUpdateError e, ?_, ?_⟩, ?_, ?_⟩
  · unfold _async_update_data
    rw [hb]
  · unfold classifyUpdateError
    by_cases hc : isConnectionError e
    · simp [hc]
    · by_cases ha : isScrutinyApiError e
      · simp [hc, ha]
      · simp [hc, ha]
  · unfold _async_update_data
    rw [hb]
  · unfold _async_update_data
    rw [hb]

/-- Environment for the C2 witness: the summary fetch raises a
connection error. -/
def c2Env : ApiEnv :=
  { summary := Except.error (PyExc.connectionError "Connection error with Scrutiny"),
    detail := fun _ => GatherResult.exc (PyExc.otherError "unused") }

/-- C2 witness: the theorem applied at a concrete connection failure and
a concrete non-empty prior snapshot. -/
theorem c2_witness :
    (∃ u, (_async_update_data c2Env [("wwn1", [])]).result = Except.error u
      ∧ u.cause = PyExc.connectionError "Connection error with Scrutiny")
    ∧ (_async_update_data c2Env [("wwn1", [])]).detailCalls = []
    ∧ (_async_update_data c2Env [("wwn1", [])]).newState = [("wwn1", [])] :=
  c2_summary_failure_aborts_cycle c2Env [("wwn1", [])]
    (PyExc.connectionError "Connection error with Scrutiny") rfl rfl

/-- A detail response that async_get_device_details accepts (truthy
success, data and metadata keys both present) whose data value is a list
rather than a dict. -/
def c3BadDetail : PyVal :=
  PyVal.dict
    [("success", PyVal.bool true),
     ("data", PyVal.list [PyVal.dict [("device", PyVal.dict [])]]),
     ("metadata", PyVal.dict [])]

/-- Environment for C3: the summary succeeds with one device and the
detail fetch returns the accepted-but-malformed payload. -/
def c3Env : ApiEnv :=
  { summary := Except.ok (PyVal.dict
      [("wwn1", PyVal.dict
        [("device", PyVal.dict [("model_name", PyVal.str "m")]),
         ("smart", PyVal.dict [])])]),
    detail := fun _ => GatherResult.val c3BadDetail }

/-- C3: there is a detail response accepted by async_get_device_details
(truthy success, data and metadata present, data not a mapping) for which
the whole cycle aborts: _async_update_data raises UpdateFailed and no new
snapshot is published — per-device isolation does not cover this case. -/
theorem c3_malformed_detail_payload_aborts_cycle
    (st : List (String × DiskRec)) :
    async_get_device_details
        (HttpResult.ok "application/json" (Except.ok c3BadDetail)) =
      Except.ok c3BadDetail
    ∧ (_async_update_data c3Env st).result =
        Except.error (classifyUpdateError
          (PyExc.attributeError "object has no attribute get"))
    ∧ (_async_update_data c3Env st).newState = st := by
  exact ⟨rfl, rfl, rfl⟩

/-- C10: at most one refresh cycle executes at a time. Along every event
trace of the modelled state machine the transport never observes more
than one summary call in flight and no refresh is ever queued, and a
trigger arriving while a cycle is refreshing leaves the state unchanged
(no second cycle is started). -/
theorem c10_single_flight (events : List SchedEvent) :
    (schedRun events).inFlightSummary ≤ 1
    ∧ (schedRun events).queued = 0
    ∧ (∀ s : SchedState, s.refreshing = true →
        schedStep s SchedEvent.trigger = s) := by
  have h := schedRun_inv events schedInit (by simp [schedInv, schedInit])
  unfold schedRun
  refine ⟨?_, h.2, ?_⟩
  · rw [h.1]
    split <;> omega
  · intro s hs
    simp [schedStep, hs]

/-- C1: in a cycle whose summary fetch succeeds with a mapping of devices
(keys distinct, as Python dict keys are) and in which no per-device result
crashes the reduction, the cycle completes successfully with one snapshot
entry per device; every device whose detail fetch raised gets an entry
whose three detail fields are empty mappings while its summary fields are
populated from the summary response, and every device whose detail fetch
returned a payload gets a populated detail section extracted from that
payload. -/
theorem c1_partial_failure_isolation (env : ApiEnv)
    (st : List (String × DiskRec)) (items : List (String × PyVal))
    (h1 : env.summary = Except.ok (PyVal.dict items))
    (h2 : (items.map Prod.fst).Nodup)
    (h3 : ∀ p ∈ items, ∃ t, reduceRecord p.2 (env.detail p.1) = Except.ok t) :
    (_async_update_data env st).result =
      Except.ok (items.map fun p => (p.1, reduceD p.2 (env.detail p.1)))
    ∧ (∀ p ∈ items, ∀ e, env.detail p.1 = GatherResult.exc e →
        ∃ si, p.2 = PyVal.dict si
        ∧ alistGet (reduceD p.2 (env.detail p.1)) KEY_DETAILS_DEVICE =
            some (PyVal.dict [])
        ∧ alistGet (reduceD p.2 (env.detail p.1)) KEY_DETAILS_SMART_LATEST =
            some (PyVal.dict [])
        ∧ alistGet (reduceD p.2 (env.detail p.1)) KEY_DETAILS_METADATA =
            some (PyVal.dict [])
        ∧ alistGet (reduceD p.2 (env.detail p.1)) KEY_SUMMARY_DEVICE =
            some (pyGetD si ATTR_DEVICE (PyVal.dict []))
        ∧ alistGet (reduceD p.2 (env.detail p.1)) KEY_SUMMARY_SMART =
            some (pyGetD si ATTR_SMART (PyVal.dict [])))
    ∧ (∀ p ∈ items, ∀ entries payload,
        env.detail p.1 = GatherResult.val (PyVal.dict entries) →
        pyGetD entries "data" (PyVal.dict []) = PyVal.dict payload →
        alistGet (reduceD p.2 (env.detail p.1)) KEY_DETAILS_DEVICE =
            some (pyGetD payload ATTR_DEVICE (PyVal.dict []))
        ∧ alistGet (reduceD p.2 (env.detail p.1)) KEY_DETAILS_SMART_LATEST =
            some (latestOf (pyGetD payload ATTR_SMART_RESULTS (PyVal.list [])))
        ∧ alistGet (reduceD p.2 (env.detail p.1)) KEY_DETAILS_METADATA =
            some (pyGetD entries ATTR_METADATA (PyVal.dict []))) := by
  refine ⟨?_, ?_, ?_⟩
  · have hb := updateBody_spec env items h1 h2 h3
    unfold _async_update_data
    rw [hb]
  · intro p hp e he
    obtain ⟨t, ht⟩ := h3 p hp
    cases hv : p.2 with
    | dict si =>
        refine ⟨si, rfl, ?_, ?_, ?_, ?_, ?_⟩ <;>
          simp [reduceD, reduceRecord, he, hv, buildEntry,
            _process_detail_results, emptyDetailFields, alistSet, alistGet,
            KEY_SUMMARY_DEVICE, KEY_SUMMARY_SMART, KEY_DETAILS_DEVICE,
            KEY_DETAILS_SMART_LATEST, KEY_DETAILS_METADATA]
    | none =>
        rw [hv] at ht; simp [reduceRecord, buildEntry] at ht
    | bool b =>
        rw [hv] at ht; simp [reduceRecord, buildEntry] at ht
    | int n =>
        rw [hv] at ht; simp [reduceRecord, buildEntry] at ht
    | str s =>
        rw [hv] at ht; simp [reduceRecord, buildEntry] at ht
    | list xs =>
        rw [hv] at ht; simp [reduceRecord, buildEntry] at ht
  · intro p hp entries payload he hd
    obtain ⟨t, ht⟩ := h3 p hp
    cases hv : p.2 with
    | dict si =>
        refine ⟨?_, ?_, ?_⟩ <;>
          simp [reduceD, reduceRecord, he, hv, buildEntry,
            _process_detail_results, hd, emptyDetailFields, alistSet, alistGet,
            KEY_SUMMARY_DEVICE, KEY_SUMMARY_SMART, KEY_DETAILS_DEVICE,
            KEY_DETAILS_SMART_LATEST, KEY_DETAILS_METADATA]
    | none =>
        rw [hv] at ht; simp [reduceRecord, buildEntry] at ht
    | bool b =>
        rw [hv] at ht; simp [reduceRecord, buildEntry] at ht
    | int n =>
        rw [hv] at ht; simp [reduceRecord, buildEntry] at ht
    | str s =>
        rw [hv] at ht; simp [reduceRecord, buildEntry] at ht
    | list xs =>
        rw [hv] at ht; simp [reduceRecord, buildEntry] at ht

/-- A well-formed successful detail payload used by the C1 witness. -/
def c1GoodDetail : PyVal :=
  PyVal.dict
    [("success", PyVal.bool true),
     ("data", PyVal.dict
       [("device", PyVal.dict [("model_name", PyVal.str "m")]),
        ("smart_results", PyVal.list [PyVal.dict [("temp", PyVal.int 30)]])]),
     ("metadata", PyVal.dict [("5", PyVal.dict [])])]

/-- The summary items for the C1 witness: devices A and B. -/
def c1Items : List (String × PyVal) :=
  [("A", PyVal.dict [("device", PyVal.dict [("name", PyVal.str "sda")]),
      ("smart", PyVal.dict [])]),
   ("B", PyVal.dict [("device", PyVal.dict [("name", PyVal.str "sdb")]),
      ("smart", PyVal.dict [])])]

/-- Environment for the C1 witness: detail(A) succeeds, detail(B) raises
a connection error. -/
def c1Env : ApiEnv :=
  { summary := Except.ok (PyVal.dict c1Items),
    detail := fun w =>
      if w = "A" then GatherResult.val c1GoodDetail
      else GatherResult.exc (PyExc.connectionError "down") }

/-- C1 witness: the theorem applied to the two-device environment in
which detail(A) succeeds and detail(B) raises. -/
theorem c1_witness :
    (_async_update_data c1Env []).result =
      Except.ok (c1Items.map fun p => (p.1, reduceD p.2 (c1Env.detail p.1))) :=
  (c1_partial_failure_isolation c1Env [] c1Items rfl (by decide)
    (by
      intro p hp
      simp only [c1Items, List.mem_cons, List.not_mem_nil, or_false] at hp
      rcases hp with h | h
      · subst h; exact ⟨_, rfl⟩
      · subst h; exact ⟨_, rfl⟩)).1

/-- C9: the reduction step is deterministic and free of hidden state: the
published result and the detail calls of a cycle never depend on the
previously stored snapshot of the coordinator, and on a well-formed cycle
each aggregated device record is exactly reduceRecord of the summary
record and detail result of that device — a pure function of those two inputs
alone. -/
theorem c9_reduction_deterministic (env : ApiEnv)
    (st1 st2 : List (String × DiskRec)) (items : List (String × PyVal))
    (h1 : env.summary = Except.ok (PyVal.dict items))
    (h2 : (items.map Prod.fst).Nodup)
    (h3 : ∀ p ∈ items, ∃ t, reduceRecord p.2 (env.detail p.1) = Except.ok t) :
    (∀ (env' : ApiEnv) (s1 s2 : List (String × DiskRec)),
        (_async_update_data env' s1).result = (_async_update_data env' s2).result
        ∧ (_async_update_data env' s1).detailCalls =
            (_async_update_data env' s2).detailCalls)
    ∧ (_async_update_data env st1).result =
        Except.ok (items.map fun p => (p.1, reduceD p.2 (env.detail p.1)))
    ∧ (_async_update_data env st1).result =
        (_async_update_data env st2).result := by
  refine ⟨?_, ?_, ?_⟩
  · intro env' s1 s2
    unfold _async_update_data
    rcases hb : updateBody env' with ⟨r, calls⟩
    cases r <;> exact ⟨rfl, rfl⟩
  · have hb := updateBody_spec env items h1 h2 h3
    unfold _async_update_data
    rw [hb]
  · have hb := updateBody_spec env items h1 h2 h3
    unfold _async_update_data
    rw [hb]

/-- Environment for the C9 witness: one device whose detail fetch fails. -/
def c9Env : ApiEnv :=
  { summary := Except.ok (PyVal.dict
      [("D", PyVal.dict [("device", PyVal.dict []), ("smart", PyVal.dict [])])]),
    detail := fun _ => GatherResult.exc (PyExc.connectionError "timeout") }

/-- C9 witness: the theorem applied to a concrete environment and two
different prior snapshots. -/
theorem c9_witness :
    (∀ (env' : ApiEnv) (s1 s2 : List (String × DiskRec)),
        (_async_update_data env' s1).result = (_async_update_data env' s2).result
        ∧ (_async_update_data env' s1).detailCalls =
            (_async_update_data env' s2).detailCalls)
    ∧ (_async_update_data c9Env [("old", [])]).result =
        Except.ok
          ([("D", PyVal.dict [("device", PyVal.dict []),
              ("smart", PyVal.dict [])])].map
            fun p => (p.1, reduceD p.2 (c9Env.detail p.1)))
    ∧ (_async_update_data c9Env [("old", [])]).result =
        (_async_update_data c9Env []).result :=
  c9_reduction_deterministic c9Env [("old", [])] []
    [("D", PyVal.dict [("device", PyVal.dict []), ("smart", PyVal.dict [])])]
    rfl (by decide)
    (by
      intro p hp
      simp only [List.mem_cons, List.not_mem_nil, or_false] at hp
      subst hp; exact ⟨_, rfl⟩)

/-- C4: for every successful detail payload whose data section is a
mapping (or absent, in which case the empty mapping is used), the
reduction stores without failing: the device sub-object of data as the
detail-device field (empty mapping if absent), element 0 of smart_results
as the latest snapshot with the empty mapping substituted when that value
is an empty list, absent, not a list at all, or has a falsy first
element, and the top-level metadata value unchanged. -/
theorem c4_detail_reduction_fields (entries payload : List (String × PyVal))
    (target : DiskRec)
    (hd : pyGetD entries "data" (PyVal.dict []) = PyVal.dict payload) :
    ∃ t, _process_detail_results (GatherResult.val (PyVal.dict entries))
        target = Except.ok t
    ∧ alistGet t KEY_DETAILS_DEVICE =
        some (pyGetD payload ATTR_DEVICE (PyVal.dict []))
    ∧ alistGet t KEY_DETAILS_SMART_LATEST =
        some (latestOf (pyGetD payload ATTR_SMART_RESULTS (PyVal.list [])))
    ∧ alistGet t KEY_DETAILS_METADATA =
        some (pyGetD entries ATTR_METADATA (PyVal.dict []))
    ∧ (∀ x xs, alistGet payload ATTR_SMART_RESULTS =
          some (PyVal.list (x :: xs)) → truthy x = true →
        alistGet t KEY_DETAILS_SMART_LATEST = some x)
    ∧ (∀ x xs, alistGet payload ATTR_SMART_RESULTS =
          some (PyVal.list (x :: xs)) → truthy x = false →
        alistGet t KEY_DETAILS_SMART_LATEST = some (PyVal.dict []))
    ∧ (alistGet payload ATTR_SMART_RESULTS = some (PyVal.list []) →
        alistGet t KEY_DETAILS_SMART_LATEST = some (PyVal.dict []))
    ∧ (alistGet payload ATTR_SMART_RESULTS = Option.none →
        alistGet t KEY_DETAILS_SMART_LATEST = some (PyVal.dict []))
    ∧ (∀ v, alistGet payload ATTR_SMART_RESULTS = some v →
        (∀ ys, v ≠ PyVal.list ys) →
        alistGet t KEY_DETAILS_SMART_LATEST = some (PyVal.dict [])) := by
  have hKmd : KEY_DETAILS_METADATA ≠ KEY_DETAILS_DEVICE := by decide
  have hKml : KEY_DETAILS_METADATA ≠ KEY_DETAILS_SMART_LATEST := by decide
  have hKld : KEY_DETAILS_SMART_LATEST ≠ KEY_DETAILS_DEVICE := by decide
  refine ⟨alistSet (alistSet (alistSet target KEY_DETAILS_DEVICE
      (pyGetD payload ATTR_DEVICE (PyVal.dict [])))
      KEY_DETAILS_SMART_LATEST
      (latestOf (pyGetD payload ATTR_SMART_RESULTS (PyVal.list []))))
      KEY_DETAILS_METADATA (pyGetD entries ATTR_METADATA (PyVal.dict [])),
    ?_, ?_, ?_, ?_, ?_, ?_, ?_, ?_, ?_⟩
  · simp only [_process_detail_results, hd]
  · rw [alistGet_set_ne _ _ _ _ hKmd, alistGet_set_ne _ _ _ _ hKld,
      alistGet_set_self]
  · rw [alistGet_set_ne _ _ _ _ hKml, alistGet_set_self]
  · rw [alistGet_set_self]
  · intro x xs hsr hx
    rw [alistGet_set_ne _ _ _ _ hKml, alistGet_set_self]
    simp [latestOf, pyGetD, hsr, hx]
  · intro x xs hsr hx
    rw [alistGet_set_ne _ _ _ _ hKml, alistGet_set_self]
    simp [latestOf, pyGetD, hsr, hx]
  · intro hsr
    rw [alistGet_set_ne _ _ _ _ hKml, alistGet_set_self]
    simp [latestOf, pyGetD, hsr]
  · intro hsr
    rw [alistGet_set_ne _ _ _ _ hKml, alistGet_set_self]
    simp [latestOf, pyGetD, hsr]
  · intro v hsr hv
    rw [alistGet_set_ne _ _ _ _ hKml, alistGet_set_self]
    cases v with
    | list ys => exact absurd rfl (hv ys)
    | none => simp [latestOf, pyGetD, hsr]
    | bool b => simp [latestOf, pyGetD, hsr]
    | int n => simp [latestOf, pyGetD, hsr]
    | str s => simp [latestOf, pyGetD, hsr]
    | dict es => simp [latestOf, pyGetD, hsr]

/-- C4 witness: the theorem applied to a concrete successful payload with
a one-element smart_results list. -/
theorem c4_witness :
    ∃ t, _process_detail_results
        (GatherResult.val (PyVal.dict
          [("success", PyVal.bool true),
           ("data", PyVal.dict
             [("device", PyVal.dict [("wwn", PyVal.str "w1")]),
              ("smart_results", PyVal.list
                [PyVal.dict [("temp", PyVal.int 31)]])]),
           ("metadata", PyVal.dict [("5", PyVal.dict [])])]))
        [] = Except.ok t
    ∧ alistGet t KEY_DETAILS_DEVICE =
        some (pyGetD [("device", PyVal.dict [("wwn", PyVal.str "w1")]),
          ("smart_results", PyVal.list [PyVal.dict [("temp", PyVal.int 31)]])]
          ATTR_DEVICE (PyVal.dict []))
    ∧ alistGet t KEY_DETAILS_SMART_LATEST =
        some (latestOf (pyGetD
          [("device", PyVal.dict [("wwn", PyVal.str "w1")]),
           ("smart_results", PyVal.list [PyVal.dict [("temp", PyVal.int 31)]])]
          ATTR_SMART_RESULTS (PyVal.list [])))
    ∧ alistGet t KEY_DETAILS_METADATA =
        some (pyGetD
          [("success", PyVal.bool true),
           ("data", PyVal.dict
             [("device", PyVal.dict [("wwn", PyVal.str "w1")]),
              ("smart_results", PyVal.list
                [PyVal.dict [("temp", PyVal.int 31)]])]),
           ("metadata", PyVal.dict [("5", PyVal.dict [])])]
          ATTR_METADATA (PyVal.dict [])) := by
  obtain ⟨t, h1, h2, h3, h4, _⟩ := c4_detail_reduction_fields
    [("success", PyVal.bool true),
     ("data", PyVal.dict
       [("device", PyVal.dict [("wwn", PyVal.str "w1")]),
        ("smart_results", PyVal.list [PyVal.dict [("temp", PyVal.int 31)]])]),
     ("metadata", PyVal.dict [("5", PyVal.dict [])])]
    [("device", PyVal.dict [("wwn", PyVal.str "w1")]),
     ("smart_results", PyVal.list [PyVal.dict [("temp", PyVal.int 31)]])]
    [] rfl
  exact ⟨t, h1, h2, h3, h4⟩

/-- On a well-formed cycle, the completion-order model of the gather
fan-in produces exactly the task-order body, for every completion order
that contains all task indices. -/
theorem updateBodySched_eq (env : ApiEnv) (completion : List Nat)
    (items : List (String × PyVal))
    (h1 : env.summary = Except.ok (PyVal.dict items))
    (h2 : (items.map Prod.fst).Nodup)
    (h3 : ∀ p ∈ items, ∃ t, reduceRecord p.2 (env.detail p.1) = Except.ok t)
    (hcov : ∀ i, i < items.length → i ∈ completion) :
    updateBodySched env completion = updateBody env := by
  have hbuild : ∀ p ∈ items, ∃ v, buildEntry p.2 = Except.ok v := by
    intro p hp
    obtain ⟨t, ht⟩ := h3 p hp
    unfold reduceRecord at ht
    cases hb : buildEntry p.2 with
    | error e => rw [hb] at ht; cases ht
    | ok v => exact ⟨v, rfl⟩
  have hsum := summaryLoop_spec items [] [] (by simpa using h2) hbuild
  have hg := gatherSched_eq (items.map Prod.fst) env.detail completion
    (by simpa using hcov)
  unfold updateBodySched updateBody
  rw [h1]
  simp only [hsum, List.nil_append]
  rw [hg]

/-- C6: on a well-formed successful cycle the snapshot lists devices in
exactly the order the summary response listed them, and each device
record is the reduction of the summary record and detail result of that
same device (results matched to launch order), for every completion order of
the detail tasks — the outcome is independent of relative detail
latencies. -/
theorem c6_ordering (env : ApiEnv) (st : List (String × DiskRec))
    (items : List (String × PyVal)) (completion : List Nat)
    (h1 : env.summary = Except.ok (PyVal.dict items))
    (h2 : (items.map Prod.fst).Nodup)
    (h3 : ∀ p ∈ items, ∃ t, reduceRecord p.2 (env.detail p.1) = Except.ok t)
    (hcov : ∀ i, i < items.length → i ∈ completion) :
    _async_update_data_sched env completion st = _async_update_data env st
    ∧ (_async_update_data env st).result =
        Except.ok (items.map fun p => (p.1, reduceD p.2 (env.detail p.1)))
    ∧ (∀ snap, (_async_update_data env st).result = Except.ok snap →
        snap.map Prod.fst = items.map Prod.fst) := by
  have hb := updateBody_spec env items h1 h2 h3
  refine ⟨?_, ?_, ?_⟩
  · unfold _async_update_data_sched _async_update_data
    rw [updateBodySched_eq env completion items h1 h2 h3 hcov]
  · unfold _async_update_data
    rw [hb]
  · intro snap hsnap
    unfold _async_update_data at hsnap
    rw [hb] at hsnap
    simp only [Except.ok.injEq] at hsnap
    subst hsnap
    simp [List.map_map, Function.comp]

/-- Summary items for the C6 witness, in the order B, A, C. -/
def c6Items : List (String × PyVal) :=
  [("B", PyVal.dict [("device", PyVal.dict []), ("smart", PyVal.dict [])]),
   ("A", PyVal.dict [("device", PyVal.dict []), ("smart", PyVal.dict [])]),
   ("C", PyVal.dict [("device", PyVal.dict []), ("smart", PyVal.dict [])])]

/-- Environment for the C6 witness: three devices, one failing detail. -/
def c6Env : ApiEnv :=
  { summary := Except.ok (PyVal.dict c6Items),
    detail := fun w =>
      if w = "A" then GatherResult.exc (PyExc.responseError "bad")
      else GatherResult.val (PyVal.dict
        [("success", PyVal.bool true),
         ("data", PyVal.dict [("device", PyVal.dict []),
            ("smart_results", PyVal.list [PyVal.dict []])]),
         ("metadata", PyVal.dict [])]) }

/-- C6 witness: the theorem applied with summary order B, A, C and the
completion order C, B, A. -/
theorem c6_witness :
    _async_update_data_sched c6Env [2, 0, 1] [] = _async_update_data c6Env []
    ∧ (_async_update_data c6Env []).result =
        Except.ok (c6Items.map fun p => (p.1, reduceD p.2 (c6Env.detail p.1)))
    ∧ (∀ snap, (_async_update_data c6Env []).result = Except.ok snap →
        snap.map Prod.fst = c6Items.map Prod.fst) :=
  c6_ordering c6Env [] c6Items [2, 0, 1] rfl (by decide)
    (by
      intro p hp
      simp only [c6Items, List.mem_cons, List.not_mem_nil, or_false] at hp
      rcases hp with h | h | h
      · subst h; exact ⟨_, rfl⟩
      · subst h; exact ⟨_, rfl⟩
      · subst h; exact ⟨_, rfl⟩)
    (by decide)

/-- Coarse classification of an API call outcome, for stating the fetch
contracts. -/
inductive ApiOutcome where
  | returned (v : PyVal)
  | responseFailure
  | attributeFailure
  | connectionFailure
  | authFailure
  | otherFailure

/-- Classify the result of an API coroutine by the exception class it
raised (or the value it returned). -/
def classifyOutcome : Except PyExc PyVal → ApiOutcome
  | Except.ok v => ApiOutcome.returned v
  | Except.error (PyExc.responseError _) => ApiOutcome.responseFailure
  | Except.error (PyExc.attributeError _) => ApiOutcome.attributeFailure
  | Except.error (PyExc.connectionError _) => ApiOutcome.connectionFailure
  | Except.error (PyExc.authError _) => ApiOutcome.authFailure
  | Except.error _ => ApiOutcome.otherFailure

/-- The amended C7 contract, written from the spec words with the one
correction the counterexample forces: async_get_summary returns the
mapping at data.summary exactly when the body is JSON and decodes to a
mapping with a truthy success flag whose data value is absent or is a
mapping holding a mapping under summary; when the decoded value is a
mapping with truthy success whose data value is present and not a
mapping, the chained .get raises AttributeError rather than
ScrutinyApiResponseError; every other deviation (non-JSON body, non-JSON
content type, falsy or missing success, data.summary missing or not a
mapping) raises ScrutinyApiResponseError. -/
def summarySpecOutcome (contentType : String) (body : Except Unit PyVal) :
    ApiOutcome :=
  if !containsJson contentType then ApiOutcome.responseFailure
  else
    match body with
    | Except.error _ => ApiOutcome.responseFailure
    | Except.ok (PyVal.dict entries) =>
        if !truthy (pyGet entries "success") then ApiOutcome.responseFailure
        else
          match alistGet entries "data" with
          | Option.none => ApiOutcome.responseFailure
          | some (PyVal.dict d) =>
              match alistGet d "summary" with
              | some (PyVal.dict s) => ApiOutcome.returned (PyVal.dict s)
              | _ => ApiOutcome.responseFailure
          | some _ => ApiOutcome.attributeFailure
    | Except.ok _ => ApiOutcome.responseFailure

/-- A response that decodes to a mapping with truthy success whose data
value is present but not a mapping. -/
def c7Input : PyVal :=
  PyVal.dict [("success", PyVal.bool true), ("data", PyVal.int 5)]

/-- C7 counterexample: on a JSON response decoding to a mapping with
truthy success whose data value is the number 5, async_get_summary does
not return and does not raise ScrutinyApiResponseError (as the claim
requires for every failing case): it raises AttributeError, which is not
even a ScrutinyApiError. -/
theorem c7_counterexample :
    async_get_summary
        (HttpResult.ok "application/json" (Except.ok c7Input)) =
      Except.error (PyExc.attributeError "object has no attribute get")
    ∧ isResponseError (PyExc.attributeError "object has no attribute get")
        = false
    ∧ isScrutinyApiError (PyExc.attributeError "object has no attribute get")
        = false :=
  ⟨rfl, rfl, rfl⟩

/-- C7 (amended): over every HTTP response environment, the outcome class
of async_get_summary coincides with the amended contract
summarySpecOutcome — it returns exactly the data.summary mapping on
well-formed responses, raises AttributeError on the
present-but-non-mapping data case, and raises ScrutinyApiResponseError on
every other deviation. -/
theorem c7_amended_summary_contract (contentType : String)
    (body : Except Unit PyVal) :
    classifyOutcome (async_get_summary (HttpResult.ok contentType body)) =
      summarySpecOutcome contentType body := by
  unfold async_get_summary summarySpecOutcome
  by_cases hct : containsJson contentType
  · simp only [hct, Bool.not_true, Bool.false_eq_true, if_false]
    cases body with
    | error u => rfl
    | ok data =>
        cases data with
        | none => rfl
        | bool b => rfl
        | int n => rfl
        | str s => rfl
        | list xs => rfl
        | dict entries =>
            cases hs : truthy (pyGet entries "success") with
            | false => simp [hs, classifyOutcome]
            | true =>
                simp only [hs, Bool.not_true, Bool.false_eq_true, if_false]
                cases hdv : alistGet entries "data" with
                | none => simp [pyGetD, hdv, classifyOutcome, alistGet]
                | some dv =>
                    cases dv with
                    | dict d =>
                        cases hsv : alistGet d "summary" with
                        | none => simp [pyGetD, hdv, hsv, classifyOutcome]
                        | some sv =>
                            cases sv <;>
                              simp [pyGetD, hdv, hsv, classifyOutcome]
                    | none => simp [pyGetD, hdv, classifyOutcome]
                    | bool b => simp [pyGetD, hdv, classifyOutcome]
                    | int n => simp [pyGetD, hdv, classifyOutcome]
                    | str s => simp [pyGetD, hdv, classifyOutcome]
                    | list xs => simp [pyGetD, hdv, classifyOutcome]
  · have hct' : containsJson contentType = false := by
      cases h : containsJson contentType
      · rfl
      · exact absurd h hct
    simp [hct', classifyOutcome]

/-- C8: async_get_device_details on a JSON response decoding to a mapping
returns that entire mapping exactly when the success flag is truthy and
both the data and metadata keys are present; when the success flag is
falsy or missing, or either key is absent, it raises
ScrutinyApiResponseError. -/
theorem c8_details_contract (contentType : String)
    (entries : List (String × PyVal))
    (h : containsJson contentType = true) :
    (async_get_device_details
          (HttpResult.ok contentType (Except.ok (PyVal.dict entries))) =
        Except.ok (PyVal.dict entries)
      ↔ (truthy (pyGet entries "success") = true
         ∧ (alistGet entries "data").isSome = true
         ∧ (alistGet entries "metadata").isSome = true))
    ∧ ((truthy (pyGet entries "success") = false
        ∨ (alistGet entries "data").isNone = true
        ∨ (alistGet entries "metadata").isNone = true) →
      ∃ m, async_get_device_details
            (HttpResult.ok contentType (Except.ok (PyVal.dict entries))) =
          Except.error (PyExc.responseError m)) := by
  unfold async_get_device_details
  cases hs : truthy (pyGet entries "success") with
  | false =>
      constructor
      · simp [h, hs]
      · intro _
        exact ⟨"Scrutiny API device details call not successful or unexpected format",
          by simp [h, hs]⟩
  | true =>
      cases hda : alistGet entries "data" with
      | none =>
          constructor
          · simp [h, hs, hda]
          · intro _
            exact ⟨"Scrutiny API device details response is missing data or metadata key",
              by simp [h, hs, hda]⟩
      | some dv =>
          cases hme : alistGet entries "metadata" with
          | none =>
              constructor
              · simp [h, hs, hda, hme]
              · intro _
                exact ⟨"Scrutiny API device details response is missing data or metadata key",
                  by simp [h, hs, hda, hme]⟩
          | some mv =>
              constructor
              · simp [h, hs, hda, hme]
              · intro hcase
                rcases hcase with hc | hc | hc
                · cases hc
                · simp at hc
                · simp at hc

/-- C8 witness: the theorem applied to a concrete well-formed detail
response over the JSON content type. -/
theorem c8_witness :
    (async_get_device_details
          (HttpResult.ok "application/json" (Except.ok (PyVal.dict
            [("success", PyVal.bool true), ("data", PyVal.dict []),
             ("metadata", PyVal.dict [])]))) =
        Except.ok (PyVal.dict
          [("success", PyVal.bool true), ("data", PyVal.dict []),
           ("metadata", PyVal.dict [])])
      ↔ (truthy (pyGet
            [("success", PyVal.bool true), ("data", PyVal.dict []),
             ("metadata", PyVal.dict [])] "success") = true
         ∧ (alistGet
            [("success", PyVal.bool true), ("data", PyVal.dict []),
             ("metadata", PyVal.dict [])] "data").isSome = true
         ∧ (alistGet
            [("success", PyVal.bool true), ("data", PyVal.dict []),
             ("metadata", PyVal.dict [])] "metadata").isSome = true))
    ∧ ((truthy (pyGet
          [("success", PyVal.bool true), ("data", PyVal.dict []),
           ("metadata", PyVal.dict [])] "success") = false
        ∨ (alistGet
          [("success", PyVal.bool true), ("data", PyVal.dict []),
           ("metadata", PyVal.dict [])] "data").isNone = true
        ∨ (alistGet
          [("success", PyVal.bool true), ("data", PyVal.dict []),
           ("metadata", PyVal.dict [])] "metadata").isNone = true) →
      ∃ m, async_get_device_details
            (HttpResult.ok "application/json" (Except.ok (PyVal.dict
              [("success", PyVal.bool true), ("data", PyVal.dict []),
               ("metadata", PyVal.dict [])]))) =
          Except.error (PyExc.responseError m)) :=
  c8_details_contract "application/json"
    [("success", PyVal.bool true), ("data", PyVal.dict []),
     ("metadata", PyVal.dict [])] (by decide)
